import Mathlib

/-! Verification of the Helios multi-agent retrieval pipeline.

Shallow embedding of the core of `backend/app` (retrieval agent, vector
embedding service, router agent, synthesizer agent, orchestrator, base agent)
and proofs of the specified properties.

Conventions:
* Python floats are modelled as rationals (`ℚ`); all arithmetic in the
  embedded code is exact decimal arithmetic, so nothing is lost.
* Python's dynamically typed values are modelled by the inductive type `Val`;
  a Python `dict` with string keys is a `PyDict` (association list, first
  match wins, as for a dict in which each key occurs once).
* Fallible Python code returns `Except PyErr α`; an uncaught exception is an
  `Except.error`.  `try/except` blocks are `match` on that result.
-/

namespace Helios

/-- A dynamically typed Python value (the shapes used by the agents). -/
inductive Val where
  | str (s : String)
  | num (q : ℚ)
  | bool (b : Bool)
  | vlist (l : List Val)
  | vdict (d : List (String × Val))
  | none
deriving Repr

/-- Python exception, rendered as its message. -/
abbrev PyErr := String

/-- A Python dict with string keys. -/
abbrev PyDict := List (String × Val)

/-- Embedding of `d.get(k, default)` on a Python dict. -/
def dget (d : PyDict) (k : String) (default : Val) : Val :=
  match d.find? (fun p => p.1 == k) with
  | some p => p.2
  | Option.none => default

/-- Embedding of `k in d` on a Python dict. -/
def dhas (d : PyDict) (k : String) : Bool :=
  (d.find? (fun p => p.1 == k)).isSome

/-- Is this value a `str`? -/
def Val.isStr : Val → Bool
  | .str _ => true
  | _ => false

/-- Is this value an `int`/`float`? -/
def Val.isNum : Val → Bool
  | .num _ => true
  | _ => false

/-- Is this value a `dict`? -/
def Val.isDict : Val → Bool
  | .vdict _ => true
  | _ => false

/-- Is this value a `list`? -/
def Val.isList : Val → Bool
  | .vlist _ => true
  | _ => false

/-- Is this value a `list` whose elements are all `str`? -/
def Val.isStrList : Val → Bool
  | .vlist l => l.all Val.isStr
  | _ => false

/-- The numeric content of a value, `0` when it is not a number
(used only where the Python code would already have crashed otherwise). -/
def Val.asNum : Val → ℚ
  | .num q => q
  | _ => 0

/-- Equality test of a value against a string literal (`v == "lit"`). -/
def Val.isStrEq (v : Val) (s : String) : Bool :=
  match v with
  | .str t => t == s
  | _ => false

/-- Python truthiness of a value. -/
def pyTruthy : Val → Bool
  | .str s => s ≠ ""
  | .num q => q ≠ 0
  | .bool b => b
  | .vlist l => !l.isEmpty
  | .vdict d => !d.isEmpty
  | .none => false

/-- Embedding of `len(v)`: defined on `str`, `list` and `dict`, a `TypeError` otherwise. -/
def pyLen : Val → Except PyErr ℕ
  | .str s => .ok s.length
  | .vlist l => .ok l.length
  | .vdict d => .ok d.length
  | _ => .error "TypeError: object has no len()"

/-- Embedding of `v[:n]`: slicing is defined on `str` and `list`, a `TypeError` otherwise. -/
def pySlice (v : Val) (n : ℕ) : Except PyErr Val :=
  match v with
  | .str s => .ok (.str (⟨s.data.take n⟩))
  | .vlist l => .ok (.vlist (l.take n))
  | _ => .error "TypeError: object is not subscriptable"

/-- Embedding of `v + s` for a string literal `s`: only `str` supports it. -/
def pyAddStr (v : Val) (s : String) : Except PyErr Val :=
  match v with
  | .str t => .ok (.str (t ++ s))
  | _ => .error "TypeError: can only concatenate str to str"

/-- The digit rendering of `f"{x:.2f}"`, abstracted to a fixed two-decimal
placeholder: no verified property inspects the rendered digits, and a digit
string can never contain the CSV context marker, so control flow is
unaffected.  (Rendering the actual digits would block kernel evaluation on
the well-founded recursion inside rational normalisation.) -/
def fmt2 (_ : ℚ) : String := "0.00"

/-- Embedding of the format `v:.2f`: a `float`/`int` renders, everything else raises. -/
def pyFormatF2 (v : Val) : Except PyErr String :=
  match v with
  | .num q => .ok (fmt2 q)
  | _ => .error "ValueError: unknown format code f"

mutual

/-- Embedding of `str(v)`, the f-string interpolation of a value (total in Python). -/
def pyStr : Val → String
  | .str s => s
  | .num q => toString q
  | .bool b => if b then "True" else "False"
  | .vlist l => "[" ++ String.intercalate ", " (pyStrList l) ++ "]"
  | .vdict d => "\x7b" ++ String.intercalate ", " (pyStrDict d) ++ "\x7d"
  | .none => "None"

/-- Renderings of the elements of a Python list. -/
def pyStrList : List Val → List String
  | [] => []
  | v :: vs => pyStr v :: pyStrList vs

/-- Renderings of the entries of a Python dict. -/
def pyStrDict : List (String × Val) → List String
  | [] => []
  | (k, v) :: ps => (k ++ ": " ++ pyStr v) :: pyStrDict ps

end

/-- Is this value hashable (usable as a set member)?  `list`/`dict` are not. -/
def pyHashable : Val → Bool
  | .vlist _ => false
  | .vdict _ => false
  | _ => true

/-- Structural equality on hashable values (set membership). -/
def valEq : Val → Val → Bool
  | .str a, .str b => a == b
  | .num a, .num b => a == b
  | .bool a, .bool b => a == b
  | .none, .none => true
  | _, _ => false

/-- Sum of a list of Python values (`sum(xs)`): `TypeError` unless all numeric. -/
def sumVals : List Val → Except PyErr ℚ
  | [] => .ok 0
  | v :: rest =>
    match v with
    | .num q => do
      let s ← sumVals rest
      return q + s
    | _ => .error "TypeError: unsupported operand type for +"

end Helios

namespace Helios

/-! Section: retrieval agent (`backend/app/agents/retrieval_agent.py`).

The agent's configuration (`max_chunks`, `similarity_threshold`,
`query_expansion`) and the outcomes of the external calls (vector search per
query variant, uploaded-CSV lookup) are passed as explicit arguments; the
rest is translated statement by statement. -/

/-- Model of `RetrievalResult` (pydantic model of the retrieval agent). -/
structure RetrievalResult where
  data : List PyDict
  search_quality : ℚ
  total_chunks : ℕ
  retrieved_chunks : ℕ
  expansion_used : Bool
  csv_data_found : Bool
deriving Repr

/-- Embedding of `RetrievalAgent._calculate_search_quality`: average of the `"score"`
fields plus a result-count bonus, clamped to 1. -/
def calculate_search_quality (results : List PyDict) (max_chunks : ℕ) : ℚ :=
  if results.isEmpty then 0
  else
    let scores := results.map (fun r => (dget r "score" (.num 0)).asNum)
    let avg_score := scores.sum / (results.length : ℚ)
    let result_bonus := min ((results.length : ℚ) / (max_chunks : ℚ)) 1 * (1/5)
    min (avg_score + result_bonus) 1

/-- One search hit as built by
`VectorEmbeddingService.search_knowledge_base` (its similarity is stored
under the key `"similarity_score"`). -/
def mkServiceResult (id text type_ : String) (metadata : PyDict)
    (similarity : ℚ) (rank : ℕ) : PyDict :=
  [("id", .str id), ("text", .str text), ("type", .str type_),
   ("metadata", .vdict metadata), ("similarity_score", .num similarity),
   ("rank", .num rank)]

/-- Embedding of `RetrievalAgent._expand_and_search`: runs each query variant through
search (each outcome is an argument; a failed variant is skipped), merges
deduplicated by `"chunk_id"`, sorts by `"score"` descending (stable), and
truncates to `max_chunks`. -/
def expand_and_search (variant_results : List (Except PyErr (List PyDict)))
    (max_chunks : ℕ) : List PyDict :=
  let all_results := variant_results.foldl
    (fun (acc : List PyDict × List Val) variant =>
      match variant with
      | .error _ => acc
      | .ok results => results.foldl
          (fun (acc : List PyDict × List Val) r =>
            let chunk_id := dget r "chunk_id" (.str "")
            if acc.2.any (valEq chunk_id) then acc
            else (acc.1 ++ [r], acc.2 ++ [chunk_id]))
          acc)
    ([], [])
  let sorted := all_results.1.mergeSort
    (fun a b => (dget b "score" (.num 0)).asNum ≤ (dget a "score" (.num 0)).asNum)
  sorted.take max_chunks

/-- Lines 120–127 of `_perform_vector_search`: quality-triggered expansion.
`results` are the base search hits, `expanded` the outcome of
`_expand_and_search` (only consulted when expansion fires). -/
def vectorPhase (results expanded : List PyDict) (query_expansion : Bool)
    (max_chunks : ℕ) : List PyDict × ℚ :=
  let search_quality := calculate_search_quality results max_chunks
  if search_quality < 1/2 && query_expansion then
    if !expanded.isEmpty && results.length < expanded.length then
      (expanded, calculate_search_quality expanded max_chunks)
    else (results, search_quality)
  else (results, search_quality)

/-- Lines 130–138 of `_perform_vector_search`: format one vector hit
(note that it reads the similarity from the key `"score"`). -/
def formatVectorResult (r : PyDict) : PyDict :=
  [("content", dget r "content" (.str "")),
   ("metadata", dget r "metadata" (.vdict [])),
   ("similarity_score", dget r "score" (.num 0)),
   ("chunk_id", dget r "chunk_id" (.str "")),
   ("source", dget r "source" (.str "vector_db")),
   ("type", .str "vector_search")]

/-- One uploaded CSV file after `_analyze_csv_data`, the input of the
structured path. -/
structure CsvChunk where
  overview : String
  file_name : String
  upload_id : String
  rows : ℕ
  columns : List String
  insights : List String
  raw_sample : List Val
deriving Repr

/-- Lines 513–528 of `_get_uploaded_csv_data`: the evidence dict built for
one uploaded CSV file. -/
def mkCsvItem (c : CsvChunk) : PyDict :=
  [("content", .str c.overview),
   ("metadata", .vdict
      [("file_name", .str c.file_name), ("upload_id", .str c.upload_id),
       ("rows", .num c.rows), ("columns", .vlist (c.columns.map Val.str))]),
   ("similarity_score", .num (9/10)),
   ("chunk_id", .str ("csv_" ++ c.upload_id)),
   ("source", .str ("uploaded_csv_" ++ c.file_name)),
   ("type", .str "csv_data"),
   ("data_insights", .vlist (c.insights.map Val.str)),
   ("raw_data_sample", .vlist c.raw_sample)]

/-- Embedding of `RetrievalAgent._perform_vector_search`.  Here `vec` is the outcome of the
initial `search_knowledge_base` call (an exception there is caught and
degrades to zero vector evidence), `variant_results` the per-variant
outcomes consumed by `_expand_and_search`, `csvChunks` the uploaded CSV
files found by `_get_uploaded_csv_data`, `total_chunks` the placeholder
count of `_get_total_chunks`. -/
def perform_vector_search (vec : Except PyErr (List PyDict))
    (variant_results : List (Except PyErr (List PyDict)))
    (csvChunks : List CsvChunk) (query_expansion : Bool) (max_chunks : ℕ)
    (total_chunks : ℕ) : RetrievalResult :=
  let (formatted_data, search_quality) :=
    match vec with
    | .error _ => ([], 0)
    | .ok results =>
      let (results, search_quality) :=
        vectorPhase results (expand_and_search variant_results max_chunks)
          query_expansion max_chunks
      (results.map formatVectorResult, search_quality)
  let csv_data := csvChunks.map mkCsvItem
  let (formatted_data, search_quality) :=
    if csv_data.isEmpty then (formatted_data, search_quality)
    else (formatted_data ++ csv_data, max search_quality (8/10))
  { data := formatted_data
    search_quality := search_quality
    total_chunks := total_chunks
    retrieved_chunks := formatted_data.length
    expansion_used := search_quality < 1/2 && query_expansion
    csv_data_found := !csv_data.isEmpty }

/-- Embedding of `RetrievalAgent._aggregate_data`: retrieve first; an empty result or any
CSV (`type == "csv_data"`) evidence is returned unchanged; only otherwise
does the traditional aggregation branch (parse pseudo-tabular text, compute
sums/means/…) run — that branch is `traditional_aggregation` here, an
argument because no verified property depends on its value. -/
def aggregate_data (search_results : RetrievalResult)
    (traditional_aggregation : RetrievalResult) : RetrievalResult :=
  if search_results.data.isEmpty then search_results
  else
    let csv_items := search_results.data.filter
      (fun item => (dget item "type" .none).isStrEq "csv_data")
    if !csv_items.isEmpty then search_results
    else traditional_aggregation

end Helios

namespace Helios

/-! Section: vector embedding service (`backend/app/services/vector_embeddings.py`).

The Mongo collection `knowledge_base` is modelled as a list of documents in
insertion order; `ObjectId`s are modelled as the document's sequence number.
`md5` is a parameter (the code treats it as an injective fingerprint of the
chunk text). -/

/-- A text chunk handed to `store_knowledge_base` (its embedding is computed
from `text` and plays no role in identity, so it is not carried). -/
structure Chunk where
  text : String
  ctype : String
deriving Repr, DecidableEq

/-- A stored `knowledge_base` document. -/
structure KBDoc where
  id : ℕ
  goal_id : String
  text : String
  ctype : String
  chunk_hash : String
deriving Repr, DecidableEq

/-- Embedding of the lookup on goal id and chunk hash: first matching document in
insertion order. -/
def find_one (db : List KBDoc) (g h : String) : Option KBDoc :=
  db.find? (fun d => d.goal_id == g && d.chunk_hash == h)

/-- The loop of `store_knowledge_base`: walks the chunks, collecting the ids
of already-present `(goal_id, hash)` pairs and accumulating the documents to
insert; at the end the new documents are inserted in one batch
(`insert_many`) and their ids appended.  Lookups go against the collection
as it was when the call started (`db`), exactly as in the code. -/
def storeLoop (md5 : String → String) (db : List KBDoc) (g : String) :
    List Chunk → List ℕ → List KBDoc → List ℕ × List KBDoc
  | [], ids, docs => (ids ++ docs.map (·.id), db ++ docs)
  | c :: rest, ids, docs =>
    let h := md5 c.text
    match find_one db g h with
    | some d => storeLoop md5 db g rest (ids ++ [d.id]) docs
    | Option.none =>
      storeLoop md5 db g rest ids
        (docs ++ [{ id := db.length + docs.length, goal_id := g,
                    text := c.text, ctype := c.ctype, chunk_hash := h }])

/-- Embedding of `VectorEmbeddingService.store_knowledge_base`: returns the chunk ids and
the collection after the call. -/
def store_knowledge_base (md5 : String → String) (db : List KBDoc)
    (g : String) (chunks : List Chunk) : List ℕ × List KBDoc :=
  if chunks.isEmpty then ([], db) else storeLoop md5 db g chunks [] []

/-- The documents inserted for a run of fresh chunks, with sequential ids
starting at `n` (batch shape of `insert_many` on an empty collection). -/
def mkDocs (md5 : String → String) (g : String) (n : ℕ) :
    List Chunk → List KBDoc
  | [] => []
  | c :: rest =>
    { id := n, goal_id := g, text := c.text, ctype := c.ctype,
      chunk_hash := md5 c.text } :: mkDocs md5 g (n + 1) rest

end Helios

namespace Helios

/-! Section: router agent (`backend/app/agents/router_agent.py`). -/

/-- The closed 7-value intent enum `QueryType`. -/
inductive QueryType where
  | SIMPLE_DATA_LOOKUP
  | AGGREGATION_ANALYSIS
  | TREND_ANALYSIS
  | COMPARISON_QUERY
  | MULTI_STEP_COMPLEX
  | PLANNING_REQUEST
  | GENERAL_QUESTION
deriving Repr, DecidableEq

/-- Model of `QueryClassification` (pydantic model of the router agent). -/
structure QueryClassification where
  query_type : QueryType
  confidence : ℚ
  intent : String
  entities : List String
  requires_tools : List String
  complexity_score : ℕ
  estimated_steps : ℕ
deriving Repr

/-- Embedding of `query.lower()`: stated over the character list so that it evaluates
in the kernel (extensionally `String.toLower`). -/
def pyLower (s : String) : String := ⟨s.data.map Char.toLower⟩

/-- Embedding of `any(word in query_lower for word in words)`: substring containment. -/
def containsAny (q : String) (words : List String) : Bool :=
  words.any (fun w => decide (w.data <:+: q.data))

/-- The keyword dispatch of `RouterAgent._fallback_classification`:
intent and static complexity from the first matching keyword group. -/
def fallbackType (query_lower : String) : QueryType × ℕ :=
  if containsAny query_lower ["what is", "show me", "find"] then
    (.SIMPLE_DATA_LOOKUP, 2)
  else if containsAny query_lower ["average", "sum", "total", "count"] then
    (.AGGREGATION_ANALYSIS, 4)
  else if containsAny query_lower ["trend", "over time", "growth", "change"] then
    (.TREND_ANALYSIS, 6)
  else if containsAny query_lower ["compare", "vs", "versus", "difference"] then
    (.COMPARISON_QUERY, 5)
  else
    (.GENERAL_QUESTION, 3)

/-- Embedding of `RouterAgent._fallback_classification`. -/
def fallback_classification (query : String) : QueryClassification :=
  let r := fallbackType (pyLower query)
  { query_type := r.1
    confidence := 3/5
    intent := "Analyze user query"
    entities := []
    requires_tools := ["vector_search"]
    complexity_score := r.2
    estimated_steps := 1 }

end Helios

namespace Helios

/-! Section: synthesizer agent (`backend/app/agents/synthesizer_agent.py`).

The two text-completion calls are arguments (`llm` for the answer, `llm2`
for the recommendations): each is the `message.content` the API returned
(`.ok` with possibly a non-string value such as `None`) or the exception the
call raised (`.error`).  Prompt strings, which are pure string construction
with no failure modes and which no property depends on, are not carried. -/

/-- Embedding of iteration (`for x in v`): lists yield elements, strings characters,
dicts keys; other values raise. -/
def pyIter : Val → Except PyErr (List Val)
  | .vlist l => .ok l
  | .str s => .ok (s.data.map (fun c => .str (String.mk [c])))
  | .vdict d => .ok (d.map (fun p => .str p.1))
  | _ => .error "TypeError: object is not iterable"

/-- Embedding of `sep.join(v)`: every element must be a string. -/
def pyJoin (sep : String) (v : Val) : Except PyErr String := do
  let elems ← pyIter v
  if elems.all Val.isStr then
    .ok (String.intercalate sep (elems.map pyStr))
  else .error "TypeError: sequence item is not str"

/-- Model of `SynthesizedResponse` (pydantic model of the synthesizer agent). -/
structure SynthesizedResponse where
  answer : String
  confidence : ℚ
  sources_used : List Val
  key_insights : List String
  data_summary : PyDict
  recommendations : Option (List String)
deriving Repr

/-- Constructing a `SynthesizedResponse` validates against the declared
field types; `sources_used` is declared `List[Dict[str, Any]]`, so a
non-dict entry raises a `ValidationError` (it is the only field the code
ever passes a wrongly-typed value for). -/
def mkSynthesizedResponse (answer : String) (confidence : ℚ)
    (sources_used : List Val) (key_insights : List String)
    (data_summary : PyDict) (recommendations : Option (List String)) :
    Except PyErr SynthesizedResponse :=
  if sources_used.all Val.isDict then
    .ok { answer := answer, confidence := confidence,
          sources_used := sources_used, key_insights := key_insights,
          data_summary := data_summary, recommendations := recommendations }
  else .error "ValidationError: sources_used items must be dicts"

/-- The numbered lines of `_create_simple_response` (one per item of
`retrieved_data[:3]`, with its index). -/
def simpleParts : List (ℕ × PyDict) → Except PyErr (List String)
  | [] => .ok []
  | (i, item) :: rest => do
    let content := dget item "content" (.str "No content")
    let score := dget item "similarity_score" (.num 0)
    let sliced ← pySlice content 200
    let sfmt ← pyFormatF2 score
    let parts ← simpleParts rest
    return ("\n" ++ toString (i + 1) ++ ". " ++ pyStr sliced ++
            "... (Relevance: " ++ sfmt ++ ")") :: parts

/-- Embedding of `SynthesizerAgent._create_simple_response`. -/
def create_simple_response (query : String) (retrieved_data : List PyDict) :
    Except PyErr String :=
  if retrieved_data.isEmpty then
    .ok ("I couldn't find specific data to answer your question about: " ++ query)
  else do
    let parts ← simpleParts (retrieved_data.take 3).enum
    let header := "Based on your query '" ++ query ++ "', I found " ++
      toString retrieved_data.length ++ " relevant data points:"
    let tail := if retrieved_data.length > 3 then
        ["\n... and " ++ toString (retrieved_data.length - 3) ++ " more results."]
      else []
    return String.intercalate "\n" ([header] ++ parts ++ tail)

/-- The fixed source object `_identify_sources` emits when nothing else was
collected. -/
def generic_source : Val :=
  .vdict [("text", .str "Analysis based on uploaded CSV data files"),
          ("type", .str "csv_data"),
          ("similarity_score", .num 1),
          ("metadata", .vdict
             [("file_name", .str "Multiple CSV files"),
              ("source", .str "Uploaded data"),
              ("rows", .num 0), ("columns", .vlist [])])]

/-- The loop of `_identify_sources`.  `seen_sources` is a Python set holding
file names (strings) and content hashes (ints); the two populations never
compare equal, so the set is modelled as the two lists `seenNames` and
`seenHashes` (a content hash is represented by the hashed prefix itself,
`hash` being treated as injective). -/
def identifySourcesLoop :
    List PyDict → List Val → List Val → List Val → Except PyErr (List Val)
  | [], sources, _, _ => .ok sources
  | item :: rest, sources, seenNames, seenHashes => do
    let content := dget item "content" (.str "")
    let clen ← pyLen content
    let text ← if 300 < clen then do
        let s ← pySlice content 300
        pyAddStr s "..."
      else .ok content
    let info₀ : PyDict :=
      [("text", text),
       ("type", dget item "type" (.str "unknown")),
       ("similarity_score", dget item "similarity_score" (.num 0))]
    match dget item "metadata" (.vdict []) with
    | .vdict md =>
      let info := info₀ ++
        [("metadata", .vdict
           [("file_name", dget md "file_name" (.str "")),
            ("source", dget md "source" (.str "")),
            ("rows", dget md "rows" (.num 0)),
            ("columns", dget md "columns" (.vlist []))])]
      let file_name := dget md "file_name" (.str "")
      if pyTruthy file_name then
        if !pyHashable file_name then
          .error "TypeError: unhashable type"
        else if seenNames.any (valEq file_name) then
          identifySourcesLoop rest sources seenNames seenHashes
        else
          identifySourcesLoop rest (sources ++ [.vdict info])
            (seenNames ++ [file_name]) seenHashes
      else do
        let key ← pySlice content 100
        if !pyHashable key then .error "TypeError: unhashable type"
        else if seenHashes.any (valEq key) then
          identifySourcesLoop rest sources seenNames seenHashes
        else
          identifySourcesLoop rest (sources ++ [.vdict info])
            seenNames (seenHashes ++ [key])
    | _ => do
      let key ← pySlice content 100
      if !pyHashable key then .error "TypeError: unhashable type"
      else if seenHashes.any (valEq key) then
        identifySourcesLoop rest sources seenNames seenHashes
      else
        identifySourcesLoop rest (sources ++ [.vdict info₀])
          seenNames (seenHashes ++ [key])

/-- Embedding of `SynthesizerAgent._identify_sources`. -/
def identify_sources (retrieved_data : List PyDict) :
    Except PyErr (List Val) := do
  let sources ← identifySourcesLoop retrieved_data [] [] []
  if sources.isEmpty then return [generic_source] else return sources

end Helios

namespace Helios

/-- Per-item work of the diagnostic logging loops (`_analyze_retrieved_data`
and the head of `_generate_main_response`): computes `len` of the item's
content and of its `data_insights`, and slices the insights of CSV items —
each of which can raise on a mistyped field. -/
def logItemCheck (item : PyDict) : Except PyErr Unit := do
  let _ ← pyLen (dget item "content" (.str ""))
  let icount ← pyLen (dget item "data_insights" (.vlist []))
  if (dget item "type" (.str "unknown")).isStrEq "csv_data" && icount > 0 then do
    let _ ← pySlice (dget item "data_insights" (.vlist [])) 2
    return ()
  else return ()

/-- Iteration of `logItemCheck` over a list of items. -/
def logItemChecks : List PyDict → Except PyErr Unit
  | [] => .ok ()
  | item :: rest => do
    let _ ← logItemCheck item
    logItemChecks rest

/-- A Python value used as a `dict` key (`summary["data_types"][t]`):
raises when unhashable, otherwise rendered to the string key of the
modelled dict. -/
def asKey (v : Val) : Except PyErr String :=
  if pyHashable v then .ok (pyStr v) else .error "TypeError: unhashable type"

/-- The `try` body of `_analyze_retrieved_data`: the logging touches over
the first 5 and last 3 items, the type counts, the captured metrics and the
mean similarity. -/
def analyzeSummary (retrieved_data : List PyDict) : Except PyErr PyDict := do
  let _ ← logItemChecks (retrieved_data.take 5)
  let _ ← logItemChecks (retrieved_data.drop (retrieved_data.length - 3))
  let data_types ← retrieved_data.foldlM
    (fun (acc : List (String × ℕ)) item =>
      if dhas item "type" then do
        let k ← asKey (dget item "type" .none)
        match acc.find? (fun p => p.1 == k) with
        | some _ => pure (acc.map (fun p => if p.1 == k then (p.1, p.2 + 1) else p))
        | Option.none => pure (acc ++ [(k, 1)])
      else pure acc) []
  let metrics ← retrieved_data.foldlM
    (fun (acc : PyDict) item =>
      if dhas item "metric" && dhas item "value" then do
        let k ← asKey (dget item "metric" .none)
        pure (acc ++ [(k, dget item "value" .none)])
      else pure acc) []
  let scores := (retrieved_data.filter (fun i => dhas i "similarity_score")).map
    (fun i => dget i "similarity_score" (.num 0))
  let quality ← if scores.isEmpty then pure (0 : ℚ) else do
    let s ← sumVals scores
    pure (s / (scores.length : ℚ))
  return [("total_items", .num retrieved_data.length),
          ("data_types", .vdict (data_types.map (fun p => (p.1, Val.num p.2)))),
          ("metrics_summary", .vdict metrics),
          ("quality_score", .num quality)]

/-- Embedding of `SynthesizerAgent._analyze_retrieved_data` (total: its `except` branch
returns the minimal summary). -/
def analyze_retrieved_data (retrieved_data : List PyDict) : PyDict :=
  match analyzeSummary retrieved_data with
  | .ok s => s
  | .error e => [("total_items", .num retrieved_data.length), ("error", .str e)]

/-- The `try` body of `_extract_key_insights`. -/
def insightsInner (retrieved_data : List PyDict) : Except PyErr (List String) := do
  if retrieved_data.isEmpty then return []
  else
    let base := ["Found " ++ toString retrieved_data.length ++ " relevant data points"]
    let metricLines := retrieved_data.filterMap (fun item =>
      match dget item "value" .none with
      | .num q => some (pyStr (dget item "metric" (.str "")) ++ ": " ++ fmt2 q)
      | _ => Option.none)
    let scores := retrieved_data.map (fun i => dget i "similarity_score" (.num 0))
    let s ← sumVals scores
    let avg := s / (scores.length : ℚ)
    let narrative :=
      if avg > 4/5 then "High data relevance - results are highly pertinent to your query"
      else if avg > 3/5 then "Good data relevance - results are generally relevant"
      else "Moderate data relevance - some results may be tangential"
    return ((base ++ metricLines ++ [narrative]).take 5)

/-- Embedding of `SynthesizerAgent._extract_key_insights` (total: its `except` branch
returns the fixed fallback line). -/
def extract_key_insights (retrieved_data : List PyDict) : List String :=
  match insightsInner retrieved_data with
  | .ok l => l
  | .error _ => ["Analysis of key patterns in your data"]

/-- The `try` body of `_calculate_confidence`. -/
def confidenceInner (retrieved_data : List PyDict) (response : String) :
    Except PyErr ℚ := do
  let f1 : ℚ := min ((retrieved_data.length : ℚ) / 5) 1
  let scores := (retrieved_data.filter (fun i => dhas i "similarity_score")).map
    (fun i => dget i "similarity_score" (.num 0))
  let factors ← if scores.isEmpty then pure [f1] else do
    let s ← sumVals scores
    pure [f1, s / (scores.length : ℚ)]
  let f3 : ℚ := min ((response.length : ℚ) / 500) 1
  let f4 : ℚ := if response.data.any Char.isDigit then 4/5 else 2/5
  let factors := factors ++ [f3, f4]
  return factors.sum / (factors.length : ℚ)

/-- Embedding of `SynthesizerAgent._calculate_confidence` (total: its `except` branch
returns 0.5). -/
def calculate_confidence (retrieved_data : List PyDict) (response : String) : ℚ :=
  match confidenceInner retrieved_data response with
  | .ok q => q
  | .error _ => 1/2

/-- Embedding of the leading-bullet strip applied to recommendation lines. -/
def stripBullet (l : String) : String :=
  ⟨l.data.dropWhile (fun c =>
     c = '-' ∨ c = '•' ∨ c = '.' ∨ c = ' ' ∨
     c = '1' ∨ c = '2' ∨ c = '3' ∨ c = '4' ∨ c = '5' ∨
     c = '6' ∨ c = '7' ∨ c = '8' ∨ c = '9')⟩

/-- Parsing of the recommendation list out of the completion's text
(lines starting with a bullet or `1.`–`5.`, cleaned, at most 5). -/
def parseRecommendations (text : String) : List String :=
  let lines := (text.splitOn "\n").map String.trim
  let bullets := lines.filter (fun l =>
    l ≠ "" && (l.startsWith "-" || l.startsWith "•" ||
      ["1.", "2.", "3.", "4.", "5."].any (fun p => l.startsWith p)))
  ((bullets.map (fun l => (stripBullet l).trim)).filter (· ≠ "")).take 5

/-- The `try` body of `_generate_recommendations`: completion call, `strip`,
parse. -/
def recsInner (llm2 : Except PyErr Val) : Except PyErr (List String) := do
  let v ← llm2
  match v with
  | .str s => return parseRecommendations s.trim
  | _ => .error "AttributeError: strip"

/-- Embedding of `SynthesizerAgent._generate_recommendations` (total: its `except`
branch returns three fixed recommendations). -/
def generate_recommendations (llm2 : Except PyErr Val) : List String :=
  match recsInner llm2 with
  | .ok l => l
  | .error _ =>
    ["Continue monitoring data trends", "Consider additional data analysis",
     "Review performance metrics regularly"]

end Helios

namespace Helios

/-- The marker by which `_generate_main_response` recognises CSV context
chunks when bounding the number of plain snippets. -/
def csvMarker : String := "HIGH RELEVANCE CSV DATA"

/-- The context-building loop of `_generate_main_response` (lines 158–199):
CSV items always contribute a rich context block; a plain item contributes
its snippet only while fewer than 5 non-CSV chunks have been collected.
Returns the chunks and whether CSV data was found. -/
def contextLoop : List PyDict → List String → Bool →
    Except PyErr (List String × Bool)
  | [], chunks, csv_found => .ok (chunks, csv_found)
  | item :: rest, chunks, csv_found => do
    let content := dget item "content" (.str "")
    let score := dget item "similarity_score" (.num 0)
    let data_type := dget item "type" (.str "")
    if data_type.isStrEq "csv_data" then do
      let md ← (match dget item "metadata" (.vdict []) with
        | .vdict md => pure md
        | _ => Except.error "AttributeError: get")
      let file_name := dget md "file_name" (.str "uploaded data")
      let rows := dget md "rows" (.num 0)
      let columns := dget md "columns" (.vlist [])
      let data_insights := dget item "data_insights" (.vlist [])
      let raw_data_sample := dget item "raw_data_sample" (.vlist [])
      let _ ← pyLen data_insights
      let _ ← pyLen content
      let ncols ← pyLen columns
      let firstCols ← pySlice columns 5
      let colsTxt ← pyJoin ", " firstCols
      let header := "BUSINESS DATA FILE: " ++ pyStr file_name ++ "\n" ++
        "Structure: " ++ pyStr rows ++ " rows, " ++ toString ncols ++
        " columns (" ++ colsTxt ++ (if ncols > 5 then "..." else "") ++ ")\n"
      let insightsTxt ← if pyTruthy data_insights then do
          let ls ← pyIter data_insights
          pure ("\nBUSINESS INTELLIGENCE ANALYSIS:\n" ++
            String.join (ls.map (fun v => "- " ++ pyStr v ++ "\n")))
        else pure ""
      let overviewTxt ← if pyTruthy content then
          match content with
          | .str s =>
            pure (if s.trim ≠ "" then "\nDATA OVERVIEW: " ++ s ++ "\n" else "")
          | _ => Except.error "AttributeError: strip"
        else pure ""
      let sampleTxt ← if pyTruthy raw_data_sample then do
          let n ← pyLen raw_data_sample
          if n > 0 then do
            let rows3 ← pySlice raw_data_sample 3
            let rs ← pyIter rows3
            pure ("\nDATA SAMPLE (First 3 rows):\n" ++
              String.join (rs.enum.map (fun p =>
                "   Row " ++ toString (p.1 + 1) ++ ": " ++ pyStr p.2 ++ "\n")))
          else pure ""
        else pure ""
      let sfmt ← pyFormatF2 score
      let chunk := "[" ++ csvMarker ++ " - Score: " ++ sfmt ++ "]\n" ++
        header ++ insightsTxt ++ overviewTxt ++ sampleTxt
      contextLoop rest (chunks ++ [chunk]) true
    else
      if (chunks.filter (fun c => !(decide (csvMarker.data <:+: c.data)))).length < 5
      then do
        let sfmt ← pyFormatF2 score
        contextLoop rest (chunks ++ ["[Relevance: " ++ sfmt ++ "] " ++ pyStr content])
          csv_found
      else contextLoop rest chunks csv_found

/-- Embedding of `SynthesizerAgent._generate_main_response`: diagnostic touches, context
building, then the completion call — whose `try` also covers the `.strip()`
of the returned content, so both a raised call and a `None` content fall
back to `_create_simple_response`. -/
def generate_main_response (llm : Except PyErr Val) (query : String)
    (retrieved_data : List PyDict) : Except PyErr String := do
  let _ ← logItemChecks (retrieved_data.take 5)
  let _ ← contextLoop retrieved_data [] false
  match llm with
  | .ok (.str s) => return s.trim
  | _ => create_simple_response query retrieved_data

/-- Embedding of `SynthesizerAgent._create_fallback_response`: template answer, sources,
fixed confidence 0.4. -/
def create_fallback_response (query : String) (retrieved_data : List PyDict) :
    Except PyErr SynthesizedResponse := do
  let simple ← create_simple_response query retrieved_data
  let sources ← identify_sources retrieved_data
  mkSynthesizedResponse simple (2/5) sources
    ["Found " ++ toString retrieved_data.length ++ " relevant data points"]
    [("total_items", .num retrieved_data.length), ("fallback", .bool true)]
    Option.none

/-- The `try` body of `_synthesize_response` (steps 1–6). -/
def synthesize_main_path (llm llm2 : Except PyErr Val) (query : String)
    (retrieved_data : List PyDict) (synthesis_type : String)
    (include_recommendations : Bool) : Except PyErr SynthesizedResponse := do
  let data_summary := analyze_retrieved_data retrieved_data
  let main_response ← generate_main_response llm query retrieved_data
  let key_insights := extract_key_insights retrieved_data
  let recommendations :=
    if include_recommendations &&
       (synthesis_type == "analytical" || synthesis_type == "strategic") then
      some (generate_recommendations llm2)
    else Option.none
  let confidence := calculate_confidence retrieved_data main_response
  let sources_used ← identify_sources retrieved_data
  mkSynthesizedResponse main_response confidence sources_used key_insights
    data_summary recommendations

/-- Embedding of `SynthesizerAgent._synthesize_response`: the main path, with any
exception recovered through `_create_fallback_response` (an exception
inside the fallback itself propagates). -/
def synthesize_response (llm llm2 : Except PyErr Val) (query : String)
    (retrieved_data : List PyDict) (synthesis_type : String)
    (include_recommendations : Bool) : Except PyErr SynthesizedResponse :=
  match synthesize_main_path llm llm2 query retrieved_data synthesis_type
    include_recommendations with
  | .ok r => .ok r
  | .error _ => create_fallback_response query retrieved_data

/-- Embedding of `SynthesizerAgent._handle_no_data_response`: the fixed "no data"
response — note `sources_used` is passed a list of strings. -/
def handle_no_data_response (query : String) :
    Except PyErr SynthesizedResponse :=
  mkSynthesizedResponse
    ("I couldn't find specific data to answer your question: '" ++ query ++
     "'. This might be because:\n\n" ++
     "1. The uploaded data doesn't contain information relevant to your query\n" ++
     "2. You may need to upload additional data files\n" ++
     "3. Try rephrasing your question with different keywords\n\n" ++
     "Please consider uploading more data or asking about topics covered in your existing data.")
    (1/5)
    [.str "No relevant data found"]
    ["No data available for analysis"]
    [("total_items", .num 0), ("error", .str "No relevant data found")]
    (some ["Upload relevant data files", "Try different search terms",
           "Check data upload status"])

/-- Embedding of `SynthesizerAgent.process`: empty evidence goes to the "no data" path,
otherwise to `_synthesize_response`. -/
def synthesizer_process (llm llm2 : Except PyErr Val) (query : String)
    (retrieved_data : List PyDict) (synthesis_type : String)
    (include_recommendations : Bool) : Except PyErr SynthesizedResponse :=
  if retrieved_data.isEmpty then handle_no_data_response query
  else synthesize_response llm llm2 query retrieved_data synthesis_type
    include_recommendations

end Helios

namespace Helios

/-! Section: base agent (`backend/app/agents/base_agent.py`). -/

/-- A raised Python exception: its class name and message. -/
structure PyExc where
  ty : String
  msg : String
deriving Repr, DecidableEq

/-- Model of `AgentResponse` (pydantic model shared by all agents), with the payload
type of the concrete agent. -/
structure AgentResponse (α : Type) where
  agent_name : String
  success : Bool
  response : Option α
  metadata : PyDict
  execution_time : ℚ
  error : Option String := Option.none
deriving Repr

/-- Embedding of `BaseAgent.execute`: runs the agent's `process` (whose outcome — a
response or a raised exception — is the argument `inner`), stamps the
elapsed time on success, and converts any exception into a `success=False`
response carrying the message and the exception type; it never re-raises. -/
def executeBase {α : Type} (agent_name : String)
    (inner : Except PyExc (AgentResponse α)) (elapsed : ℚ) :
    AgentResponse α :=
  match inner with
  | .ok r => { r with execution_time := elapsed }
  | .error e =>
    { agent_name := agent_name
      success := false
      response := Option.none
      metadata := [("error_type", .str e.ty)]
      execution_time := elapsed
      error := some ("Error in " ++ agent_name ++ ": " ++ e.msg) }

end Helios

namespace Helios

/-! Section: orchestrator (`backend/app/agents/orchestrator.py`).

`process_query_simple`, with the three agents' `execute` outcomes passed as
arguments (they are total by `executeBase`).  Each response's
`execution_time` is the wall-clock duration of that call; the session clock
is their running sum.  `max_execution_time` is the configured budget
(`self.max_execution_time`, default 60.0 seconds). -/

/-- Model of `OrchestrationResult`. -/
structure OrchestrationResult where
  final_response : String := ""
  confidence : ℚ := 0
  sources_used : List Val := []
  key_insights : List String := []
  agent_logs : ℕ := 0
  execution_time : ℚ := 0
  success : Bool := false
  error : Option String := Option.none
deriving Repr

/-- The router's payload: the classification dict and the execution plan
(a list of step dicts). -/
structure RouterOut where
  classification : PyDict
  execution_plan : List PyDict
deriving Repr

/-- Embedding of `AgentOrchestrator._determine_synthesis_type`. -/
def determine_synthesis_type (classification : PyDict) : String :=
  let query_type := dget classification "query_type" (.str "")
  let complexity := (dget classification "complexity_score" (.num 1)).asNum
  if complexity ≥ 7 || query_type.isStrEq "multi_step_complex" then "strategic"
  else if complexity ≥ 4 || query_type.isStrEq "aggregation_analysis" ||
       query_type.isStrEq "trend_analysis" then "analytical"
  else "standard"

/-- The step loop of `process_query_simple`: retrieval steps call the
retriever in order; a failed retrieval is logged and skipped; a successful
one extends the running evidence list.  State: remaining steps, index of
the next retriever call, accumulated evidence, log count, session clock. -/
def orchestratorLoop (retrieve : ℕ → AgentResponse RetrievalResult) :
    List PyDict → ℕ → List PyDict → ℕ → ℚ →
    Except PyErr (List PyDict × ℕ × ℚ)
  | [], _, data, logs, clock => .ok (data, logs, clock)
  | step :: rest, k, data, logs, clock =>
    if (dget step "agent" .none).isStrEq "RetrievalAgent" then
      let resp := retrieve k
      let logs := logs + 1
      let clock := clock + resp.execution_time
      if resp.success then
        match resp.response with
        | some rr => orchestratorLoop retrieve rest (k + 1) (data ++ rr.data) logs clock
        | Option.none => .error "AttributeError: data"
      else orchestratorLoop retrieve rest (k + 1) data logs clock
    else orchestratorLoop retrieve rest k data logs clock

/-- Embedding of `AgentOrchestrator.process_query_simple`.  Note that
`max_execution_time` is never consulted: there is no branch in the function
that compares the session clock against it. -/
def process_query_simple (max_execution_time : ℚ)
    (routing : AgentResponse RouterOut)
    (retrieve : ℕ → AgentResponse RetrievalResult)
    (synthesize : List PyDict → String → AgentResponse SynthesizedResponse) :
    OrchestrationResult :=
  if !routing.success then
    { agent_logs := 1, error := routing.error }
  else
    match routing.response with
    | Option.none => { agent_logs := 1, error := some "AttributeError: response" }
    | some ro =>
      match orchestratorLoop retrieve ro.execution_plan 0 [] 1
        routing.execution_time with
      | .error e => { error := some e }
      | .ok (retrieved_data, logs, clock) =>
        let stype := determine_synthesis_type ro.classification
        let sresp := synthesize retrieved_data stype
        let logs := logs + 1
        let clock := clock + sresp.execution_time
        if sresp.success then
          match sresp.response with
          | some syn =>
            { final_response := syn.answer
              confidence := syn.confidence
              sources_used := syn.sources_used
              key_insights := syn.key_insights
              agent_logs := logs
              execution_time := clock
              success := true
              error := Option.none }
          | Option.none => { error := some "AttributeError: answer" }
        else
          { agent_logs := logs, execution_time := clock, success := false,
            error := sresp.error }

end Helios

namespace Helios

/-! Section: claim-specific auxiliary definitions. -/

/-- The search-quality formula as the specification words it (section 4.3b):
`mean(similarity) + min(count/target_k, 1)*0.2`, clamped to 1 — stated over
the similarities of the results, for comparison with
`calculate_search_quality`. -/
def spec_search_quality (similarities : List ℚ) (target_k : ℕ) : ℚ :=
  min (similarities.sum / (similarities.length : ℚ) +
       min ((similarities.length : ℚ) / (target_k : ℚ)) 1 * (1/5)) 1

/-- An evidence item whose fields, as read by `_create_simple_response`
(first 3 items), are well typed: a string content and a numeric
similarity. -/
def fallbackHeadOk (item : PyDict) : Bool :=
  (dget item "content" (.str "")).isStr &&
  (dget item "similarity_score" (.num 0)).isNum

/-- An evidence item whose fields, as read by `_identify_sources`, are well
typed: a string content, and (when its metadata is a dict) a hashable file
name. -/
def sourceOk (item : PyDict) : Bool :=
  (dget item "content" (.str "")).isStr &&
  (match dget item "metadata" (.vdict []) with
   | .vdict md => pyHashable (dget md "file_name" (.str ""))
   | _ => true)

/-- A plain, fully well-typed vector evidence item. -/
def goodItem : PyDict :=
  [("content", .str "Revenue: 100"), ("similarity_score", .num (9/10)),
   ("type", .str "vector_search")]

/-- An evidence item with a mistyped `similarity_score` (a string). -/
def badScoreItem : PyDict := [("similarity_score", .str "high")]

/-- A malformed evidence list: one item with a string similarity. -/
def badData : List PyDict := [badScoreItem]

/-- Three well-typed items followed by one with a mistyped similarity:
the main synthesis path crashes on the fourth item, while the fallback
(which formats only the first 3) succeeds. -/
def mixedData : List PyDict := [goodItem, goodItem, goodItem, badScoreItem]

/-- A concrete synthesized answer used to exercise the orchestrator. -/
def demoSyn : SynthesizedResponse :=
  { answer := "Total Revenue is 5000", confidence := 4/5,
    sources_used := [generic_source],
    key_insights := ["Found 1 relevant data points"],
    data_summary := [("total_items", .num 1)],
    recommendations := Option.none }

/-- A concrete retrieval payload used to exercise the orchestrator. -/
def demoRR : RetrievalResult :=
  { data := [goodItem], search_quality := 9/10, total_chunks := 100,
    retrieved_chunks := 1, expansion_used := false, csv_data_found := false }

/-- A successful routing response: a 2-step plan (retrieve, synthesize),
taking 30 seconds of wall-clock time. -/
def demoRouting : AgentResponse RouterOut :=
  { agent_name := "RouterAgent", success := true,
    response := some
      { classification := [("query_type", .str "aggregation_analysis"),
                           ("complexity_score", .num 4)],
        execution_plan :=
          [[("step", .num 1), ("agent", .str "RetrievalAgent"),
            ("action", .str "vector_search")],
           [("step", .num 2), ("agent", .str "SynthesizerAgent"),
            ("action", .str "synthesize_response")]] },
    metadata := [], execution_time := 30 }

/-- A successful retriever `execute` outcome taking 50 seconds. -/
def demoRetrieve : ℕ → AgentResponse RetrievalResult := fun _ =>
  { agent_name := "RetrievalAgent", success := true, response := some demoRR,
    metadata := [], execution_time := 50 }

/-- A successful synthesizer `execute` outcome taking 40 seconds. -/
def demoSynth : List PyDict → String → AgentResponse SynthesizedResponse :=
  fun _ _ =>
    { agent_name := "SynthesizerAgent", success := true,
      response := some demoSyn, metadata := [], execution_time := 40 }

end Helios

namespace Helios

/-! Section: theorems. -/

/-- Every evidence dict built for an uploaded CSV file is tagged
`type == "csv_data"`. -/
theorem mkCsvItem_type (c : CsvChunk) :
    (dget (mkCsvItem c) "type" Val.none).isStrEq "csv_data" = true := rfl

/-- The structured path appends its CSV evidence at the end of the returned
data whenever any exists. -/
theorem perform_vector_search_data (vec : Except PyErr (List PyDict))
    (vr : List (Except PyErr (List PyDict))) (csvChunks : List CsvChunk)
    (qe : Bool) (mc tc : ℕ) (h : csvChunks ≠ []) :
    ∃ pre, (perform_vector_search vec vr csvChunks qe mc tc).data =
      pre ++ csvChunks.map mkCsvItem := by
  have hcsv : (csvChunks.map mkCsvItem).isEmpty = false := by
    cases csvChunks with
    | nil => exact absurd rfl h
    | cons a l => rfl
  cases vec with
  | error e => exact ⟨[], by simp [perform_vector_search, hcsv]⟩
  | ok rs =>
    exact ⟨List.map formatVectorResult
      (vectorPhase rs (expand_and_search vr mc) qe mc).1,
      by simp [perform_vector_search, hcsv]⟩

/-- C1: whenever the structured path finds any business-insight (CSV)
evidence, the combined search quality of the returned retrieval result is
at least 0.8, regardless of the vector path's outcome. -/
theorem C1_structured_quality_floor (vec : Except PyErr (List PyDict))
    (vr : List (Except PyErr (List PyDict))) (csvChunks : List CsvChunk)
    (qe : Bool) (mc tc : ℕ) (h : csvChunks ≠ []) :
    8/10 ≤ (perform_vector_search vec vr csvChunks qe mc tc).search_quality := by
  have hcsv : (csvChunks.map mkCsvItem).isEmpty = false := by
    cases csvChunks with
    | nil => exact absurd rfl h
    | cons a l => rfl
  cases vec with
  | error e => simp [perform_vector_search, hcsv, le_max_right]
  | ok rs => simp [perform_vector_search, hcsv, le_max_right]

/-- Witness for `C1_structured_quality_floor` at a concrete input. -/
theorem C1_witness :
    8/10 ≤ (perform_vector_search (.ok []) []
      [⟨"overview", "sales.csv", "1", 10, ["Revenue"], ["Revenue Analysis"], []⟩]
      true 10 100).search_quality :=
  C1_structured_quality_floor _ _ _ _ _ _ (List.cons_ne_nil _ _)

end Helios

namespace Helios

/-- C2: when the retrieved data contains structured business-insight (CSV)
evidence, the aggregation step (`action == "aggregate_data"`) returns its
input retrieval result unchanged — same evidence list, same search quality,
same chunk counts — without running the traditional aggregation branch. -/
theorem C2_aggregation_short_circuit (vec : Except PyErr (List PyDict))
    (vr : List (Except PyErr (List PyDict))) (csvChunks : List CsvChunk)
    (qe : Bool) (mc tc : ℕ) (trad : RetrievalResult) (h : csvChunks ≠ []) :
    aggregate_data (perform_vector_search vec vr csvChunks qe mc tc) trad =
      perform_vector_search vec vr csvChunks qe mc tc := by
  obtain ⟨pre, hdata⟩ := perform_vector_search_data vec vr csvChunks qe mc tc h
  have hmapne : csvChunks.map mkCsvItem ≠ [] := by
    cases csvChunks with
    | nil => exact absurd rfl h
    | cons a l => simp
  have happ : pre ++ csvChunks.map mkCsvItem ≠ [] := fun hcon =>
    hmapne (List.append_eq_nil.mp hcon).2
  have h1 : (perform_vector_search vec vr csvChunks qe mc tc).data.isEmpty = false := by
    rw [hdata]
    cases hpm : pre ++ csvChunks.map mkCsvItem with
    | nil => exact absurd hpm happ
    | cons a l => rfl
  have h2 : (perform_vector_search vec vr csvChunks qe mc tc).data.filter
      (fun item => (dget item "type" Val.none).isStrEq "csv_data") ≠ [] := by
    rw [hdata, List.filter_append]
    have : (csvChunks.map mkCsvItem).filter
        (fun item => (dget item "type" Val.none).isStrEq "csv_data") =
        csvChunks.map mkCsvItem := by
      rw [List.filter_eq_self]
      intro a ha
      rcases List.mem_map.mp ha with ⟨c, _, rfl⟩
      exact mkCsvItem_type c
    rw [this]
    intro hcon
    exact hmapne (List.append_eq_nil.mp hcon).2
  unfold aggregate_data
  rw [h1]
  simp only [Bool.false_eq_true, if_false]
  rw [if_pos]
  simp [h2]

end Helios

namespace Helios

/-- Witness for `C2_aggregation_short_circuit` at a concrete input. -/
theorem C2_witness :
    aggregate_data (perform_vector_search (.ok []) []
      [⟨"overview", "sales.csv", "1", 10, ["Revenue"], ["Revenue Analysis"], []⟩]
      true 10 100) demoRR =
    perform_vector_search (.ok []) []
      [⟨"overview", "sales.csv", "1", 10, ["Revenue"], ["Revenue Analysis"], []⟩]
      true 10 100 :=
  C2_aggregation_short_circuit _ _ _ _ _ _ _ (List.cons_ne_nil _ _)

/-- C3: the expansion fires iff the pre-expansion quality is below 0.5 and
expansion is enabled, and the expanded set replaces the original results
iff it strictly increases the result count (in which case the quality is
recomputed on it); the result is either the base set or one expansion —
never a re-expansion. -/
theorem C3_expansion_characterisation (results expanded : List PyDict)
    (qe : Bool) (mc : ℕ) :
    vectorPhase results expanded qe mc =
      if calculate_search_quality results mc < 1/2 ∧ qe = true ∧
         results.length < expanded.length
      then (expanded, calculate_search_quality expanded mc)
      else (results, calculate_search_quality results mc) := by
  unfold vectorPhase
  have hB : ((decide (calculate_search_quality results mc < 1/2) && qe) = true) ↔
      (calculate_search_quality results mc < 1/2 ∧ qe = true) := by simp
  have hB2 : ((!expanded.isEmpty && decide (results.length < expanded.length)) = true) ↔
      results.length < expanded.length := by
    cases expanded with
    | nil => simp
    | cons a l => simp
  simp only [hB, hB2]
  by_cases h1 : calculate_search_quality results mc < 1/2
  · by_cases h2 : qe = true
    · by_cases h3 : results.length < expanded.length
      · rw [if_pos ⟨h1, h2⟩, if_pos h3, if_pos ⟨h1, h2, h3⟩]
      · rw [if_pos ⟨h1, h2⟩, if_neg h3, if_neg (fun hc => h3 hc.2.2)]
    · rw [if_neg (fun hc => h2 hc.2), if_neg (fun hc => h2 hc.2.1)]
  · rw [if_neg (fun hc => h1 hc.1), if_neg (fun hc => h1 hc.1)]

/-- C4 (code bug): on an actual hit of `search_knowledge_base` — whose
similarity is stored under `"similarity_score"` — the computed quality
reads the absent key `"score"`, so a single 0.9-similarity hit yields
quality 0.02 instead of the specified 0.92; the similarity term is always
zero. -/
theorem C4_quality_key_mismatch :
    calculate_search_quality
      [mkServiceResult "c1" "Record 1: Revenue: 100" "record" [] (9/10) 1] 10
      = 1/50 ∧
    spec_search_quality [9/10] 10 = 23/25 ∧ (1/50 : ℚ) ≠ 23/25 := by
  have h1 : (dget (mkServiceResult "c1" "Record 1: Revenue: 100" "record" []
      (9/10) 1) "score" (Val.num 0)).asNum = 0 := rfl
  refine ⟨?_, ?_, by norm_num⟩
  · simp [calculate_search_quality, h1]
    norm_num [min_def]
  · norm_num [spec_search_quality, min_def]

end Helios

namespace Helios

/-- The keyword fallback dispatch only ever produces five of the seven
intents: neither `PLANNING_REQUEST` nor `MULTI_STEP_COMPLEX` has a keyword
branch. -/
theorem fallbackType_never_planning_or_multistep (s : String) :
    (fallbackType s).1 ≠ QueryType.PLANNING_REQUEST ∧
    (fallbackType s).1 ≠ QueryType.MULTI_STEP_COMPLEX := by
  unfold fallbackType
  split_ifs <;> exact ⟨by simp, by simp⟩

/-- C6 (counterexample): it is not the case that every one of the 7 intent
categories is reachable via the keyword fallback classifier:
`PLANNING_REQUEST` is produced for no query. -/
theorem C6_counterexample :
    ¬ ∀ t : QueryType, ∃ q : String,
      (fallback_classification q).query_type = t := by
  intro h
  obtain ⟨q, hq⟩ := h QueryType.PLANNING_REQUEST
  exact (fallbackType_never_planning_or_multistep (pyLower q)).1 hq

/-- C6 (amended): the keyword fallback always has confidence exactly 0.6,
and exactly five of the seven intents are reachable through it — simple
lookup, aggregation, trend, comparison and general — while
`MULTI_STEP_COMPLEX` and `PLANNING_REQUEST` are reachable for no query. -/
theorem C6_fallback_coverage :
    (∀ q : String, (fallback_classification q).confidence = 3/5) ∧
    (∃ q, (fallback_classification q).query_type = QueryType.SIMPLE_DATA_LOOKUP) ∧
    (∃ q, (fallback_classification q).query_type = QueryType.AGGREGATION_ANALYSIS) ∧
    (∃ q, (fallback_classification q).query_type = QueryType.TREND_ANALYSIS) ∧
    (∃ q, (fallback_classification q).query_type = QueryType.COMPARISON_QUERY) ∧
    (∃ q, (fallback_classification q).query_type = QueryType.GENERAL_QUESTION) ∧
    (∀ q : String, (fallback_classification q).query_type ≠ QueryType.MULTI_STEP_COMPLEX) ∧
    (∀ q : String, (fallback_classification q).query_type ≠ QueryType.PLANNING_REQUEST) := by
  refine ⟨fun q => rfl, ⟨"find the sales", by decide⟩, ⟨"total revenue", by decide⟩,
    ⟨"revenue trend", by decide⟩, ⟨"compare revenue and cost", by decide⟩,
    ⟨"hello", by decide⟩,
    fun q => (fallbackType_never_planning_or_multistep (pyLower q)).2,
    fun q => (fallbackType_never_planning_or_multistep (pyLower q)).1⟩

/-- C7 (code bug): on an empty evidence list the synthesizer's "no data"
path constructs its fixed response with `sources_used` a list of strings,
although the model declares `List[Dict[str, Any]]`; the construction
therefore raises a validation error instead of returning the confidence-0.2
response — for every query and completion outcome. -/
theorem C7_no_data_path_raises (llm llm2 : Except PyErr Val)
    (query synthesis_type : String) (ir : Bool) :
    synthesizer_process llm llm2 query [] synthesis_type ir =
      .error "ValidationError: sources_used items must be dicts" := rfl

/-- C9 (code bug): a session whose agent calls take 120 seconds of
wall-clock time against a 60-second `max_execution_time` budget still ends
successfully with no timeout error, and the outcome does not depend on the
budget at all — `process_query_simple` never consults it. -/
theorem C9_budget_never_enforced :
    (process_query_simple 60 demoRouting demoRetrieve demoSynth).success = true ∧
    (process_query_simple 60 demoRouting demoRetrieve demoSynth).error = Option.none ∧
    (process_query_simple 60 demoRouting demoRetrieve demoSynth).execution_time = 120 ∧
    ∀ budget : ℚ, process_query_simple budget demoRouting demoRetrieve demoSynth =
      process_query_simple 60 demoRouting demoRetrieve demoSynth :=
  ⟨rfl, rfl, by
    have h : (process_query_simple 60 demoRouting demoRetrieve demoSynth).execution_time =
        30 + 50 + 40 := rfl
    rw [h]; norm_num,
   fun _ => rfl⟩

/-- C10: `BaseAgent.execute` is total — it returns an `AgentResponse` for
every inner outcome and never re-raises: a successful inner `process` is
returned with the elapsed time stamped on, and a raised exception becomes a
`success = False` response carrying the error message and the exception
type in the metadata. -/
theorem C10_execute_total (α : Type) (agent_name : String) (elapsed : ℚ)
    (e : PyExc) (r : AgentResponse α) :
    executeBase (α := α) agent_name (Except.error e) elapsed =
      { agent_name := agent_name, success := false, response := Option.none,
        metadata := [("error_type", .str e.ty)], execution_time := elapsed,
        error := some ("Error in " ++ agent_name ++ ": " ++ e.msg) } ∧
    executeBase agent_name (Except.ok r) elapsed =
      { r with execution_time := elapsed } :=
  ⟨rfl, rfl⟩

end Helios

namespace Helios

/-- On an empty collection every chunk is fresh: the loop inserts one
document per chunk, ids sequential from the number of already-accumulated
documents. -/
theorem storeLoop_empty_db (md5 : String → String) (g : String) :
    ∀ (chunks : List Chunk) (ids : List ℕ) (docs : List KBDoc),
    storeLoop md5 [] g chunks ids docs =
      (ids ++ (docs ++ mkDocs md5 g docs.length chunks).map (·.id),
       docs ++ mkDocs md5 g docs.length chunks) := by
  intro chunks
  induction chunks with
  | nil => intro ids docs; simp [storeLoop, mkDocs]
  | cons c rest ih =>
    intro ids docs
    rw [storeLoop]
    have hfind : find_one [] g (md5 c.text) = Option.none := rfl
    rw [hfind]
    rw [ih]
    simp [mkDocs, List.append_assoc]

/-- The ids of the freshly inserted documents are sequential. -/
theorem mkDocs_map_id (md5 : String → String) (g : String) :
    ∀ (cs : List Chunk) (n : ℕ),
    (mkDocs md5 g n cs).map (·.id) = List.range' n cs.length := by
  intro cs
  induction cs with
  | nil => intro n; rfl
  | cons c rest ih => intro n; simp [mkDocs, List.range', ih]

/-- Looking a chunk's hash up in the documents of a fresh batch with
pairwise-distinct hashes finds exactly the document inserted for it. -/
theorem find_one_mkDocs (md5 : String → String) (g : String) :
    ∀ (cs : List Chunk) (n i : ℕ) (hi : i < cs.length),
    ((cs.map (fun c => md5 c.text)).Nodup) →
    find_one (mkDocs md5 g n cs) g (md5 (cs.get ⟨i, hi⟩).text) =
      some { id := n + i, goal_id := g, text := (cs.get ⟨i, hi⟩).text,
             ctype := (cs.get ⟨i, hi⟩).ctype,
             chunk_hash := md5 ((cs.get ⟨i, hi⟩).text) } := by
  intro cs
  induction cs with
  | nil => intro n i hi; exact absurd hi (Nat.not_lt_zero i)
  | cons c rest ih =>
    intro n i hi hnd
    rw [List.map_cons, List.nodup_cons] at hnd
    cases i with
    | zero =>
      simp only [mkDocs]
      unfold find_one
      rw [List.find?_cons_of_pos _ (by simp)]
      simp
    | succ j =>
      have hj : j < rest.length := Nat.lt_of_succ_lt_succ hi
      have hne : ¬ (md5 c.text = md5 ((rest.get ⟨j, hj⟩).text)) := by
        intro heq
        exact hnd.1 (heq ▸ List.mem_map.mpr
          ⟨rest.get ⟨j, hj⟩, List.get_mem _ _ _, rfl⟩)
      have hrec := ih (n + 1) j hj hnd.2
      simp only [mkDocs]
      unfold find_one
      rw [List.find?_cons_of_neg _ (by simpa using hne)]
      rw [show (List.find? (fun d => d.goal_id == g &&
          d.chunk_hash == md5 (((c :: rest).get ⟨j + 1, hi⟩).text))
          (mkDocs md5 g (n + 1) rest)) = find_one (mkDocs md5 g (n + 1) rest) g
          (md5 ((rest.get ⟨j, hj⟩).text)) from rfl]
      rw [show n + (j + 1) = n + 1 + j from by omega]
      exact hrec

/-- When every chunk's `(goal_id, hash)` pair is already present, the loop
inserts nothing and returns the existing ids in chunk order. -/
theorem storeLoop_all_found (md5 : String → String) (db0 : List KBDoc)
    (g : String) :
    ∀ (cs : List Chunk) (f : ℕ → KBDoc) (ids : List ℕ),
    (∀ i (hi : i < cs.length),
      find_one db0 g (md5 (cs.get ⟨i, hi⟩).text) = some (f i)) →
    storeLoop md5 db0 g cs ids [] =
      (ids ++ (List.range cs.length).map (fun i => (f i).id), db0) := by
  intro cs
  induction cs with
  | nil => intro f ids _; simp [storeLoop]
  | cons c rest ih =>
    intro f ids h
    have h0 : find_one db0 g (md5 c.text) = some (f 0) := h 0 (Nat.succ_pos _)
    have hstep : storeLoop md5 db0 g (c :: rest) ids [] =
        storeLoop md5 db0 g rest (ids ++ [(f 0).id]) [] := by
      rw [storeLoop, h0]
    rw [hstep,
      ih (fun i => f (i + 1)) _ (fun i hi => h (i + 1) (Nat.succ_lt_succ hi))]
    simp [List.range_succ_eq_map, List.map_map, Function.comp, List.append_assoc]

end Helios

namespace Helios

/-- C5 (amended): for a chunk list whose text hashes are pairwise distinct
(as those produced by the chunk builder are), ingestion into a fresh
partition is idempotent — the second identical call returns the very same
id list and leaves the collection unchanged, inserting nothing. -/
theorem C5_idempotent_ingestion (md5 : String → String) (g : String)
    (chunks : List Chunk)
    (hnd : (chunks.map (fun c => md5 c.text)).Nodup) :
    store_knowledge_base md5 (store_knowledge_base md5 [] g chunks).2 g chunks =
      store_knowledge_base md5 [] g chunks := by
  by_cases hce : chunks.isEmpty
  · simp [store_knowledge_base, hce]
  · have h1 : store_knowledge_base md5 [] g chunks =
        ((mkDocs md5 g 0 chunks).map (·.id), mkDocs md5 g 0 chunks) := by
      unfold store_knowledge_base
      rw [if_neg hce, storeLoop_empty_db]
      simp
    have hf : ∀ i (hi : i < chunks.length),
        find_one (mkDocs md5 g 0 chunks) g (md5 ((chunks.get ⟨i, hi⟩).text)) =
          some (if hi2 : i < chunks.length then
            KBDoc.mk (0 + i) g ((chunks.get ⟨i, hi2⟩).text)
              ((chunks.get ⟨i, hi2⟩).ctype) (md5 ((chunks.get ⟨i, hi2⟩).text))
          else KBDoc.mk i "" "" "" "") := by
      intro i hi
      rw [dif_pos hi]
      exact find_one_mkDocs md5 g chunks 0 i hi hnd
    have h2 : store_knowledge_base md5 (mkDocs md5 g 0 chunks) g chunks =
        ((List.range chunks.length).map (fun i =>
          (if hi2 : i < chunks.length then
            KBDoc.mk (0 + i) g ((chunks.get ⟨i, hi2⟩).text)
              ((chunks.get ⟨i, hi2⟩).ctype) (md5 ((chunks.get ⟨i, hi2⟩).text))
          else KBDoc.mk i "" "" "" "").id), mkDocs md5 g 0 chunks) := by
      unfold store_knowledge_base
      rw [if_neg hce]
      simpa using storeLoop_all_found md5 (mkDocs md5 g 0 chunks) g chunks
        (fun i => if hi2 : i < chunks.length then
          KBDoc.mk (0 + i) g ((chunks.get ⟨i, hi2⟩).text)
            ((chunks.get ⟨i, hi2⟩).ctype) (md5 ((chunks.get ⟨i, hi2⟩).text))
        else KBDoc.mk i "" "" "" "") [] hf
    rw [h1]
    show store_knowledge_base md5 (mkDocs md5 g 0 chunks) g chunks = _
    rw [h2]
    have hids : (List.range chunks.length).map (fun i =>
        (if hi2 : i < chunks.length then
          KBDoc.mk (0 + i) g ((chunks.get ⟨i, hi2⟩).text)
            ((chunks.get ⟨i, hi2⟩).ctype) (md5 ((chunks.get ⟨i, hi2⟩).text))
        else KBDoc.mk i "" "" "" "").id) =
        (mkDocs md5 g 0 chunks).map (·.id) := by
      rw [mkDocs_map_id]
      rw [show List.range' 0 chunks.length = List.range chunks.length from
        (List.range_eq_range' _).symm]
      have hcongr : ∀ i ∈ List.range chunks.length,
          (if hi2 : i < chunks.length then
            KBDoc.mk (0 + i) g ((chunks.get ⟨i, hi2⟩).text)
              ((chunks.get ⟨i, hi2⟩).ctype) (md5 ((chunks.get ⟨i, hi2⟩).text))
          else KBDoc.mk i "" "" "" "").id = i := by
        intro i hir
        rw [dif_pos (List.mem_range.mp hir)]
        simp
      rw [List.map_congr_left hcongr]
      exact List.map_id _
    rw [hids]

end Helios

namespace Helios

/-- Witness for `C5_idempotent_ingestion` at a concrete input. -/
theorem C5_witness :
    store_knowledge_base (fun s => s)
      ((store_knowledge_base (fun s => s) [] "g"
        [⟨"A", "record"⟩, ⟨"B", "statistics"⟩]).2)
      "g" [⟨"A", "record"⟩, ⟨"B", "statistics"⟩] =
    store_knowledge_base (fun s => s) [] "g"
      [⟨"A", "record"⟩, ⟨"B", "statistics"⟩] :=
  C5_idempotent_ingestion _ _ _ (by decide)

/-- C5 (counterexample): for a chunk list containing the same text twice,
the first call stores the identical text twice (two documents with the same
`(partition, hash)` pair — the batch insert only checks against the
collection as of the start of the call), and the second identical call
returns a different chunk-id set: id 1 is in the first call's ids but not
in the second's. -/
theorem C5_counterexample :
    1 ∈ (store_knowledge_base (fun s => s) [] "g"
      [⟨"A", "record"⟩, ⟨"A", "record"⟩]).1 ∧
    1 ∉ (store_knowledge_base (fun s => s)
      ((store_knowledge_base (fun s => s) [] "g"
        [⟨"A", "record"⟩, ⟨"A", "record"⟩]).2) "g"
      [⟨"A", "record"⟩, ⟨"A", "record"⟩]).1 ∧
    (((store_knowledge_base (fun s => s) [] "g"
      [⟨"A", "record"⟩, ⟨"A", "record"⟩]).2).filter
      (fun d => d.chunk_hash == "A")).length = 2 := by
  refine ⟨by decide, by decide, by decide⟩

end Helios

namespace Helios

/-- C8 (counterexample): synthesis does propagate an exception for a
malformed non-empty evidence list — one item whose `similarity_score` is
the string `"high"` crashes both the main path and the fallback (both
format the score with `:.2f`), so `_synthesize_response` raises. -/
theorem C8_counterexample :
    (synthesize_response (.ok (.str "The analysis")) (.ok (.str "- Do X"))
      "total revenue" badData "standard" true).isOk = false := rfl

/-- A `str`-tagged value is literally some string. -/
theorem isStr_exists {v : Val} (h : v.isStr = true) : ∃ s, v = .str s := by
  cases v <;> simp [Val.isStr] at h ⊢

/-- A `num`-tagged value is literally some rational. -/
theorem isNum_exists {v : Val} (h : v.isNum = true) : ∃ n, v = .num n := by
  cases v <;> simp [Val.isNum] at h ⊢

/-- A key whose value is a string under one string default is a string
under any string default. -/
theorem dget_default_str {d : PyDict} {k : String} {a : String}
    (h : (dget d k (.str a)).isStr = true) (b : String) :
    ∃ s, dget d k (.str b) = .str s := by
  unfold dget at h ⊢
  cases hfind : d.find? (fun p => p.1 == k) with
  | none => exact ⟨b, rfl⟩
  | some q =>
    rw [hfind] at h
    exact isStr_exists h

/-- A key whose value is numeric under the 0 default is literally a
number (or absent, in which case it is the default 0). -/
theorem dget_default_num {d : PyDict} {k : String}
    (h : (dget d k (.num 0)).isNum = true) :
    ∃ n, dget d k (.num 0) = .num n :=
  isNum_exists h

/-- Bind of an `ok` value on the embedded exception monad. -/
theorem except_bind_ok {α β : Type} (a : α) (f : α → Except PyErr β) :
    (Except.ok a >>= f : Except PyErr β) = f a := rfl

/-- Purity on the embedded exception monad is `ok`. -/
theorem except_pure {α : Type} (a : α) :
    (pure a : Except PyErr α) = Except.ok a := rfl

/-- Lemma: `_create_simple_response` succeeds on any list whose first 3 items have
a string content and a numeric similarity. -/
theorem simpleParts_ok : ∀ (items : List (ℕ × PyDict)),
    (∀ p ∈ items, fallbackHeadOk p.2 = true) →
    ∃ parts, simpleParts items = .ok parts := by
  intro items
  induction items with
  | nil => intro _; exact ⟨[], rfl⟩
  | cons p rest ih =>
    intro h
    obtain ⟨parts, hp⟩ := ih (fun q hq => h q (List.mem_cons_of_mem _ hq))
    have hh := h p (List.mem_cons_self _ _)
    rw [fallbackHeadOk, Bool.and_eq_true] at hh
    obtain ⟨s, hcs⟩ := dget_default_str hh.1 "No content"
    obtain ⟨n, hn⟩ := dget_default_num hh.2
    cases p with
    | mk i item =>
      simp only [simpleParts, hcs, hn, pySlice, pyFormatF2, except_bind_ok]
      rw [hp]
      exact ⟨_, rfl⟩

end Helios

namespace Helios

/-- Appending one dict to an all-dict list keeps it all-dict. -/
theorem all_isDict_append (sources : List Val) (info : PyDict)
    (hs : sources.all Val.isDict = true) :
    (sources ++ [Val.vdict info]).all Val.isDict = true := by
  rw [List.all_append, hs]
  rfl

end Helios

namespace Helios

/-- The loop of `_identify_sources` succeeds — returning only dict source
objects — on any items whose fields, as it reads them, are well typed. -/
theorem identifySourcesLoop_ok : ∀ (items : List PyDict)
    (sources seenN seenH : List Val),
    (∀ it ∈ items, sourceOk it = true) →
    sources.all Val.isDict = true →
    ∃ out, identifySourcesLoop items sources seenN seenH = .ok out ∧
      out.all Val.isDict = true := by
  intro items
  induction items with
  | nil => intro sources seenN seenH _ hs; exact ⟨sources, rfl, hs⟩
  | cons item rest ih =>
    intro sources seenN seenH h hs
    have hitem := h item (List.mem_cons_self _ _)
    have hrest : ∀ it ∈ rest, sourceOk it = true :=
      fun it hit => h it (List.mem_cons_of_mem _ hit)
    rw [sourceOk, Bool.and_eq_true] at hitem
    obtain ⟨s, hcs⟩ := isStr_exists hitem.1
    have hashCase : ∀ (info : PyDict), ∃ out, (do
        let key ← pySlice (Val.str s) 100
        if !pyHashable key then
          Except.error (ε := PyErr) "TypeError: unhashable type"
        else if seenH.any (valEq key) then
          identifySourcesLoop rest sources seenN seenH
        else
          identifySourcesLoop rest (sources ++ [Val.vdict info])
            seenN (seenH ++ [key])) = .ok out ∧
        out.all Val.isDict = true := by
      intro info
      rw [show pySlice (Val.str s) 100 =
        Except.ok (Val.str ⟨s.data.take 100⟩) from rfl, except_bind_ok]
      rw [show (!pyHashable (Val.str ⟨s.data.take 100⟩)) = false from rfl]
      simp only [Bool.false_eq_true, if_false]
      by_cases hmem : (seenH.any (valEq (Val.str ⟨s.data.take 100⟩))) = true
      · rw [if_pos hmem]
        exact ih _ _ _ hrest hs
      · rw [if_neg hmem]
        exact ih _ _ _ hrest (all_isDict_append _ _ hs)
    simp only [identifySourcesLoop, hcs]
    rw [show pyLen (Val.str s) = Except.ok s.length from rfl, except_bind_ok]
    by_cases h3 : 300 < s.length
    · rw [if_pos h3]
      rw [show pySlice (Val.str s) 300 =
        Except.ok (Val.str ⟨s.data.take 300⟩) from rfl, except_bind_ok]
      rw [show pyAddStr (Val.str ⟨s.data.take 300⟩) "..." =
        Except.ok (Val.str (String.mk (s.data.take 300) ++ "...")) from rfl,
        except_bind_ok]
      cases hmd : dget item "metadata" (.vdict []) with
      | vdict md =>
        dsimp only
        have hhash : pyHashable (dget md "file_name" (.str "")) = true := by
          have h2 := hitem.2
          rw [hmd] at h2
          exact h2
        by_cases htr : pyTruthy (dget md "file_name" (.str "")) = true
        · rw [if_pos htr]
          rw [show (!pyHashable (dget md "file_name" (.str ""))) = false from
            by rw [hhash]; rfl]
          simp only [Bool.false_eq_true, if_false]
          by_cases hmem :
              (seenN.any (valEq (dget md "file_name" (.str "")))) = true
          · rw [if_pos hmem]
            exact ih _ _ _ hrest hs
          · rw [if_neg hmem]
            exact ih _ _ _ hrest (all_isDict_append _ _ hs)
        · rw [if_neg htr]
          exact hashCase _
      | str s2 => dsimp only; exact hashCase _
      | num q => dsimp only; exact hashCase _
      | bool b => dsimp only; exact hashCase _
      | vlist l => dsimp only; exact hashCase _
      | none => dsimp only; exact hashCase _
    · rw [if_neg h3, except_bind_ok]
      cases hmd : dget item "metadata" (.vdict []) with
      | vdict md =>
        dsimp only
        have hhash : pyHashable (dget md "file_name" (.str "")) = true := by
          have h2 := hitem.2
          rw [hmd] at h2
          exact h2
        by_cases htr : pyTruthy (dget md "file_name" (.str "")) = true
        · rw [if_pos htr]
          rw [show (!pyHashable (dget md "file_name" (.str ""))) = false from
            by rw [hhash]; rfl]
          simp only [Bool.false_eq_true, if_false]
          by_cases hmem :
              (seenN.any (valEq (dget md "file_name" (.str "")))) = true
          · rw [if_pos hmem]
            exact ih _ _ _ hrest hs
          · rw [if_neg hmem]
            exact ih _ _ _ hrest (all_isDict_append _ _ hs)
        · rw [if_neg htr]
          exact hashCase _
      | str s2 => dsimp only; exact hashCase _
      | num q => dsimp only; exact hashCase _
      | bool b => dsimp only; exact hashCase _
      | vlist l => dsimp only; exact hashCase _
      | none => dsimp only; exact hashCase _

end Helios

namespace Helios

/-- Lemma: `_identify_sources` succeeds, with only dict source objects, on
well-typed items. -/
theorem identify_sources_ok (data : List PyDict)
    (h : data.all sourceOk = true) :
    ∃ out, identify_sources data = .ok out ∧ out.all Val.isDict = true := by
  obtain ⟨out, hout, hd⟩ := identifySourcesLoop_ok data [] [] []
    (fun it hit => List.all_eq_true.mp h it hit) rfl
  unfold identify_sources
  rw [hout, except_bind_ok]
  by_cases he : out.isEmpty
  · rw [if_pos he]
    exact ⟨[generic_source], rfl, rfl⟩
  · rw [if_neg he]
    exact ⟨out, rfl, hd⟩

/-- Lemma: `_create_simple_response` succeeds whenever the first 3 items carry a
string content and a numeric similarity. -/
theorem create_simple_response_ok (query : String) (data : List PyDict)
    (h : (data.take 3).all fallbackHeadOk = true) :
    ∃ a, create_simple_response query data = .ok a := by
  by_cases hd : data.isEmpty
  · exact ⟨_, by rw [create_simple_response, if_pos hd]⟩
  · have hmem : ∀ p ∈ (data.take 3).enum, fallbackHeadOk p.2 = true := by
      intro p hp
      have hz : p ∈ (List.range (data.take 3).length).zip (data.take 3) := by
        rw [← List.enum_eq_zip_range]
        exact hp
      cases p with
      | mk i x =>
        exact List.all_eq_true.mp h x (List.of_mem_zip hz).2
    obtain ⟨parts, hp⟩ := simpleParts_ok (data.take 3).enum hmem
    unfold create_simple_response
    rw [if_neg hd, hp, except_bind_ok]
    exact ⟨_, rfl⟩

/-- C8 (amended): when the first 3 evidence items have well-typed content
and similarity fields and every item's source fields are well typed, any
exception raised during synthesis is recovered: the result is the fallback
— a template answer built by `_create_simple_response` from the first 3
items, confidence exactly 0.4, dict-shaped sources.  (The counterexample
shows that with mistyped fields among the first 3 the fallback itself can
raise, so synthesis does propagate in general.) -/
theorem C8_synthesis_fallback (llm llm2 : Except PyErr Val) (query : String)
    (data : List PyDict) (stype : String) (ir : Bool) (e : PyErr)
    (hne : data ≠ [])
    (hhead : (data.take 3).all fallbackHeadOk = true)
    (hsrc : data.all sourceOk = true)
    (hfail : synthesize_main_path llm llm2 query data stype ir = .error e) :
    ∃ a r, create_simple_response query data = .ok a ∧
      synthesize_response llm llm2 query data stype ir = .ok r ∧
      r.answer = a ∧ r.confidence = 2/5 ∧
      r.key_insights =
        ["Found " ++ toString data.length ++ " relevant data points"] ∧
      r.data_summary =
        [("total_items", .num data.length), ("fallback", .bool true)] ∧
      r.sources_used.all Val.isDict = true := by
  obtain ⟨a, ha⟩ := create_simple_response_ok query data hhead
  obtain ⟨out, hout, hdicts⟩ := identify_sources_ok data hsrc
  have hfb : create_fallback_response query data = .ok
      { answer := a, confidence := 2/5, sources_used := out,
        key_insights :=
          ["Found " ++ toString data.length ++ " relevant data points"],
        data_summary :=
          [("total_items", .num data.length), ("fallback", .bool true)],
        recommendations := Option.none } := by
    unfold create_fallback_response
    rw [ha, except_bind_ok, hout, except_bind_ok]
    unfold mkSynthesizedResponse
    rw [if_pos hdicts]
  have hsr : synthesize_response llm llm2 query data stype ir =
      create_fallback_response query data := by
    unfold synthesize_response
    rw [hfail]
  exact ⟨a, _, ha, by rw [hsr, hfb], rfl, rfl, rfl, rfl, hdicts⟩

/-- Witness for `C8_synthesis_fallback` at a concrete input: three
well-typed items plus a fourth with a string similarity make the main path
raise while the fallback succeeds with confidence 0.4. -/
theorem C8_witness :
    ((synthesize_response (.ok (.str "ans")) (.ok (.str "- recs"))
      "total revenue" mixedData "standard" true).toOption.map
        SynthesizedResponse.confidence) = some (2/5) := by
  obtain ⟨a, r, _, hr, _, hconf, _⟩ :=
    C8_synthesis_fallback (.ok (.str "ans")) (.ok (.str "- recs"))
      "total revenue" mixedData "standard" true
      "ValueError: unknown format code f"
      (by simp [mixedData]) (by rfl) (by rfl) (by rfl)
  rw [hr]
  simp [Except.toOption, hconf]

end Helios
